import Mathlib

set_option maxHeartbeats 1000000
set_option linter.unnecessarySeqFocus false

/-!
Verification development for the target-salesforce-v3 connector
(`target_salesforce_v3/client.py` and `target_salesforce_v3/sinks.py`).

The Python code is shallowly embedded: JSON/Python values become the
inductive `Value`, Python dicts become association lists with first-match
lookup (keys are unique in every dict the code builds), fallible code
returns `Except PyErr`, and the HTTP layer is an explicit oracle
(a function from requests to responses, or a stream of responses).
-/

namespace TargetSalesforceV3

/-- Python exception kinds that the embedded code can raise. -/
inductive PyErr where
  | typeError
  | keyError
  | indexError
  | unboundLocalError
  | retriableAPIError
  | fatalAPIError (text : String)
  | quotaExceeded
  | noCreatableFields
  | zeroDivisionError
  | jsonDecodeError
  | exn
  | streamEnded
  deriving DecidableEq, Repr

/-- A `datetime.datetime` value: calendar fields plus an optional UTC
offset in minutes (`none` = naive datetime, for which `%z` renders as ""). -/
structure PyDatetime where
  year : Nat
  month : Nat
  day : Nat
  hour : Nat
  minute : Nat
  second : Nat
  tzMinutes : Option Int

/-- Python/JSON values as they flow through the connector. -/
inductive Value where
  | vNull : Value
  | vBool : Bool → Value
  | vInt : Int → Value
  | vStr : String → Value
  | vDatetime : PyDatetime → Value
  | vDict : List (String × Value) → Value
  | vList : List Value → Value

/-- A Python dict, modelled as an association list with unique keys
(first-match lookup). -/
abbrev PyDict := List (String × Value)

/-- Python truthiness (`bool(v)`). -/
def truthy : Value → Bool
  | .vNull => false
  | .vBool b => b
  | .vInt n => n != 0
  | .vStr s => s != ""
  | .vDatetime _ => true
  | .vDict d => !d.isEmpty
  | .vList l => !l.isEmpty

/-- `d.get(k)`: `some v` when the key is present, else `none`. -/
def dget (d : PyDict) (k : String) : Option Value :=
  (d.find? (fun kv => kv.1 == k)).map (fun kv => kv.2)

/-- `d.get(k)` with Python's `None` default. -/
def dgetD (d : PyDict) (k : String) : Value :=
  (dget d k).getD .vNull

/-- `k in d`. -/
def dcontains (d : PyDict) (k : String) : Bool :=
  d.any (fun kv => kv.1 == k)

/-- `d[k] = v`: replace in place when present, else append (dict insertion
order semantics). -/
def dset (d : PyDict) (k : String) (v : Value) : PyDict :=
  if dcontains d k then d.map (fun kv => if kv.1 == k then (kv.1, v) else kv)
  else d ++ [(k, v)]

/-- `d.pop(k, None)` / `del d[k]`, viewed on the remaining dict. -/
def dpop (d : PyDict) (k : String) : PyDict :=
  d.filter (fun kv => kv.1 != k)

/-- The keys of a dict, in order. -/
def dkeys (d : PyDict) : List String :=
  d.map (fun kv => kv.1)

/-- Python `s.endswith(t)`, on the character lists (evaluates by `decide`,
unlike `String.endsWith`). -/
def pyEndsWith (s t : String) : Bool :=
  t.toList.isSuffixOf s.toList

/-! ### `clean_payload` (client.py:211-229) -/

/-- `v in [None, ""]`: the values dropped by `clean_dict_items`. -/
def isEmptyItem : Value → Bool
  | .vNull => true
  | .vStr s => s == ""
  | _ => false

/-- Zero-padded two-digit rendering used by `strftime`. -/
def pad2 (n : Nat) : String :=
  if n < 10 then "0" ++ Nat.repr n else Nat.repr n

/-- Zero-padded four-digit year rendering used by `strftime` (`%Y`). -/
def pad4 (n : Nat) : String :=
  if n < 10 then "000" ++ Nat.repr n
  else if n < 100 then "00" ++ Nat.repr n
  else if n < 1000 then "0" ++ Nat.repr n
  else Nat.repr n

/-- `%z`: empty for a naive datetime, else `±HHMM`. -/
def tzSuffix : Option Int → String
  | none => ""
  | some off =>
      (if off < 0 then "-" else "+") ++ pad2 (off.natAbs / 60) ++ pad2 (off.natAbs % 60)

/-- `v.strftime("%Y-%m-%dT%H:%M:%S%z")` (client.py:220). -/
def strftimeIso (dt : PyDatetime) : String :=
  pad4 dt.year ++ "-" ++ pad2 dt.month ++ "-" ++ pad2 dt.day ++ "T" ++
  pad2 dt.hour ++ ":" ++ pad2 dt.minute ++ ":" ++ pad2 dt.second ++
  tzSuffix dt.tzMinutes

/-- client.py:221-224: when the rendered datetime is longer than 20
characters (an aware datetime), a colon is inserted before the last two
characters (`dt_str[:-2] + ":" + dt_str[-2:]`). -/
def insertTzColon (s : String) : String :=
  if 20 < s.length then s.take (s.length - 2) ++ ":" ++ s.drop (s.length - 2) else s

/-- The string a `datetime` value becomes inside `clean_payload`. -/
def formatDatetime (dt : PyDatetime) : String :=
  insertTzColon (strftimeIso dt)

mutual
/-- The transformation `clean_payload` applies to a single kept value:
datetimes are rendered to strings, dicts are cleaned recursively, anything
else passes through (client.py:218-228). -/
def cleanValue : Value → Value
  | .vDatetime dt => .vStr (formatDatetime dt)
  | .vDict d => .vDict (clean_payload d)
  | v => v

/-- `clean_payload` (client.py:215-229): drop items whose value is
`None`/`""` (`clean_dict_items`), then rewrite each remaining value with
`cleanValue`. The filter and the rewrite are interleaved here;
`clean_payload_eq_filter_map` below shows this equals the source's
filter-then-map phrasing. -/
def clean_payload : PyDict → PyDict
  | [] => []
  | (k, v) :: rest =>
      if isEmptyItem v then clean_payload rest
      else (k, cleanValue v) :: clean_payload rest
end

/-- `clean_dict_items` (client.py:211-213). -/
def clean_dict_items (d : PyDict) : PyDict :=
  d.filter (fun kv => !isEmptyItem kv.2)

theorem clean_payload_eq_filter_map (d : PyDict) :
    clean_payload d = (clean_dict_items d).map (fun kv => (kv.1, cleanValue kv.2)) := by
  induction d with
  | nil => rfl
  | cons kv rest ih =>
      obtain ⟨k, v⟩ := kv
      by_cases h : isEmptyItem v
      · simp [clean_payload, clean_dict_items, List.filter_cons, h] at ih ⊢
        exact ih
      · simp [clean_payload, clean_dict_items, List.filter_cons, h] at ih ⊢
        exact ih

/-! ### Schema description (client.py:254-281) -/

/-- One entry of a field's `picklistValues` describe metadata. -/
structure PicklistValue where
  label : String
  active : Bool

/-- The per-field describe metadata the connector reads. -/
structure SFField where
  name : String
  createable : Bool
  custom : Bool
  defaultedOnCreate : Bool
  nillable : Bool
  externalId : Bool
  picklistValues : List PicklistValue

/-- The dictionary `sf_fields_description` builds. -/
structure FieldsDict where
  createable : List String
  custom : List String
  createable_not_default : List String
  required : List String
  external_ids : List String
  pickable : List (String × List String)

/-- `sf_fields_description` (client.py:254-281), as a function of the
describe result `fld`. `pickable` maps each field with a non-empty
`picklistValues` list to the labels of its active picklist entries. -/
def sf_fields_description (fld : List SFField) : FieldsDict where
  createable := (fld.filter (fun f => f.createable && !f.custom)).map (fun f => f.name)
  custom := (fld.filter (fun f => f.custom)).map (fun f => f.name)
  createable_not_default :=
    (fld.filter (fun f => f.createable && !f.defaultedOnCreate && !f.custom)).map (fun f => f.name)
  required :=
    (fld.filter (fun f => !f.nillable && f.createable && !f.defaultedOnCreate)).map (fun f => f.name)
  external_ids := (fld.filter (fun f => f.externalId)).map (fun f => f.name)
  pickable :=
    (fld.filter (fun f => !f.picklistValues.isEmpty)).map
      (fun f => (f.name, (f.picklistValues.filter (fun p => p.active)).map (fun p => p.label)))

/-! ### `validate_output` (client.py:307-321) -/

/-- The key test of `validate_output`'s loop:
`k.endswith("__c") or k in fields_dict["createable"] + ["Id"]`. -/
def allowedKey (fld : List SFField) (k : String) : Bool :=
  pyEndsWith k "__c" || ((sf_fields_description fld).createable ++ ["Id"]).contains k

/-- `validate_output` (client.py:307-321): clean the mapping, fail with
`NoCreatableFieldsException` when the schema has no createable non-custom
field, and keep exactly the allowed keys. -/
def validate_output (fld : List SFField) (mapping : PyDict) : Except PyErr PyDict :=
  if (sf_fields_description fld).createable.isEmpty then
    .error .noCreatableFields
  else
    .ok ((clean_payload mapping).filter (fun kv => allowedKey fld kv.1))

/-! ### Facts used for idempotence of `validate_output` -/

theorem strftimeIso_length_pos (dt : PyDatetime) : 0 < (strftimeIso dt).length := by
  have hdash : ("-" : String).length = 1 := rfl
  simp only [strftimeIso, String.length_append, hdash]
  omega

theorem formatDatetime_length_pos (dt : PyDatetime) : 0 < (formatDatetime dt).length := by
  have hcolon : (":" : String).length = 1 := rfl
  unfold formatDatetime insertTzColon
  split
  · simp only [String.length_append, hcolon]
    omega
  · exact strftimeIso_length_pos dt

theorem formatDatetime_ne_empty (dt : PyDatetime) : formatDatetime dt ≠ "" := by
  intro h
  have := formatDatetime_length_pos dt
  rw [h] at this
  simp at this

theorem isEmptyItem_cleanValue (v : Value) (h : isEmptyItem v = false) :
    isEmptyItem (cleanValue v) = false := by
  cases v with
  | vNull => simp [isEmptyItem] at h
  | vStr s => exact h
  | vDatetime dt =>
      simp [cleanValue, isEmptyItem]
      exact formatDatetime_ne_empty dt
  | vBool b => rfl
  | vInt n => rfl
  | vDict d => rfl
  | vList l => rfl

mutual
theorem cleanValue_idem (v : Value) : cleanValue (cleanValue v) = cleanValue v := by
  cases v with
  | vDict d =>
      simp only [cleanValue]
      rw [clean_payload_idem d]
  | vDatetime dt => rfl
  | vNull => rfl
  | vBool b => rfl
  | vInt n => rfl
  | vStr s => rfl
  | vList l => rfl

theorem clean_payload_idem (d : PyDict) : clean_payload (clean_payload d) = clean_payload d := by
  match d with
  | [] => rfl
  | (k, v) :: rest =>
      cases h : isEmptyItem v with
      | true =>
          simp only [clean_payload, h, if_true]
          exact clean_payload_idem rest
      | false =>
          have hc := isEmptyItem_cleanValue v h
          simp [clean_payload, h, hc, cleanValue_idem v, clean_payload_idem rest]
end

theorem clean_payload_filter_key (q : String → Bool) (d : PyDict) :
    clean_payload (d.filter (fun kv => q kv.1)) = (clean_payload d).filter (fun kv => q kv.1) := by
  induction d with
  | nil => rfl
  | cons kv rest ih =>
      obtain ⟨k, v⟩ := kv
      by_cases hq : q k
      · by_cases he : isEmptyItem v
        · simp [List.filter_cons, hq, clean_payload, he, ih]
        · simp [List.filter_cons, hq, clean_payload, he, ih]
      · by_cases he : isEmptyItem v
        · simp [List.filter_cons, hq, clean_payload, he, ih]
        · simp [List.filter_cons, hq, clean_payload, he, ih]

/-- A one-field schema used to instantiate hypotheses in witnesses. -/
def fld0 : List SFField :=
  [⟨"LastName", true, false, false, false, false, []⟩]

/-- A small mapping used to instantiate hypotheses in witnesses. -/
def mapping0 : PyDict := [("LastName", .vStr "Doe"), ("Bogus", .vStr "x")]

/-- C6: every key of the payload returned by `validate_output` either ends
with the custom-field suffix `__c`, equals `Id`, or names a createable
non-custom field of the object's schema. -/
theorem C6_validate_output_keys (fld : List SFField) (mapping payload : PyDict)
    (k : String) (v : Value)
    (hok : validate_output fld mapping = .ok payload) (hmem : (k, v) ∈ payload) :
    pyEndsWith k "__c" = true ∨ k = "Id" ∨
      ∃ f ∈ fld, f.name = k ∧ f.createable = true ∧ f.custom = false := by
  unfold validate_output at hok
  split at hok
  · exact absurd hok (by simp)
  · rw [Except.ok.injEq] at hok
    subst hok
    have hk := (List.mem_filter.mp hmem).2
    simp only [allowedKey, Bool.or_eq_true] at hk
    rcases hk with hk | hk
    · exact Or.inl hk
    · have hk' : k ∈ (sf_fields_description fld).createable ++ ["Id"] := by
        simpa using hk
      rcases List.mem_append.mp hk' with h | h
      · simp only [sf_fields_description, List.mem_map, List.mem_filter] at h
        obtain ⟨f, ⟨hf, hcc⟩, hname⟩ := h
        simp only [Bool.and_eq_true, Bool.not_eq_true'] at hcc
        exact Or.inr (Or.inr ⟨f, hf, hname, hcc.1, hcc.2⟩)
      · simp only [List.mem_singleton] at h
        exact Or.inr (Or.inl h)

/-- Witness for C6 at a concrete schema and mapping. -/
theorem C6_witness :
    pyEndsWith "LastName" "__c" = true ∨ "LastName" = "Id" ∨
      ∃ f ∈ fld0, f.name = "LastName" ∧ f.createable = true ∧ f.custom = false :=
  C6_validate_output_keys fld0 mapping0 [("LastName", .vStr "Doe")] "LastName" (.vStr "Doe")
    (by simp [validate_output, fld0, mapping0, sf_fields_description, allowedKey,
      clean_payload, cleanValue, isEmptyItem, pyEndsWith]
      <;> decide)
    (by simp)

/-! ### `get_pickable` (client.py:283-301) -/

/-- `re.sub(r'\W+', '', choice).lower()` on an ASCII label: drop non-word
characters (word characters are letters, digits and the underscore — note
`\W` keeps underscores) and lower-case the rest. -/
def normalizeChoice (s : String) : String :=
  ((s.toList.filter (fun c => c.isAlphanum || c == '_')).map Char.toLower).asString

/-- Lookup in a string-keyed dict of label lists (`pickable_fields[sf_field]`). -/
def lookupStrs (l : List (String × List String)) (k : String) : Option (List String) :=
  (l.find? (fun kv => kv.1 == k)).map (fun kv => kv.2)

/-- `list.index(x)`: index of the first occurrence (callers only use it
under a membership guard, as the source does). -/
def pyIndex (l : List String) (x : String) : Nat :=
  match l with
  | [] => 0
  | a :: rest => if a == x then 0 else pyIndex rest x + 1

/-- `get_pickable` (client.py:283-301). `record_field` is the caller's
`record.get(...)` value (`none` = Python `None`). The candidate is compared
verbatim against `valid_options` (the normalized labels); on a match the
original label at the same index is returned; on no match with
`select_first` the code returns `valid_options[0]` (the normalized first
label — the warning it logs mentions `nice_valid_options[0]` instead), and
raises `IndexError` when there is no active option; otherwise the default. -/
def get_pickable (fld : List SFField) (record_field : Option String) (sf_field : String)
    (dflt : Option String) (select_first : Bool) : Except PyErr (Option String) :=
  match lookupStrs (sf_fields_description fld).pickable sf_field with
  | none => .ok dflt
  | some labels =>
      let valid_options := labels.map normalizeChoice
      let nice_valid_options := labels
      let isIn : Bool := match record_field with
        | some rf => valid_options.contains rf
        | none => false
      if isIn then
        match record_field with
        | some rf => .ok (nice_valid_options.get? (pyIndex valid_options rf))
        | none => .ok none
      else if select_first then
        match labels with
        | [] => .error .indexError
        | l0 :: _ => .ok (some (normalizeChoice l0))
      else .ok dflt

/-- What C5 claims `get_pickable` does, written from the claim's words:
normalize the candidate (strip non-alphanumerics, lower-case), match it
case-insensitively against the active labels, return the matching active
label; on no match with `select_first`, return the first active option. -/
def get_pickable_claimed (fld : List SFField) (record_field : Option String)
    (sf_field : String) (dflt : Option String) (select_first : Bool) : Option String :=
  match lookupStrs (sf_fields_description fld).pickable sf_field with
  | none => dflt
  | some labels =>
      match record_field with
      | some rf =>
          match labels.find? (fun l => normalizeChoice l == normalizeChoice rf) with
          | some l => some l
          | none => if select_first then labels.head? else dflt
      | none => if select_first then labels.head? else dflt

/-- A schema with one picklist field `Rating`, active label `"Hot"`,
inactive label `"Cold"`. -/
def fldPick : List SFField :=
  [⟨"Rating", true, false, false, true, false, [⟨"Hot", true⟩, ⟨"Cold", false⟩]⟩]

/-- Counterexample to C5: the code does not normalize the candidate. For
candidate `"Hot"` against active label `"Hot"`, the claimed behavior
(normalize + case-insensitive match) returns the label, but the code
compares the raw candidate `"Hot"` against the normalized option `"hot"`,
finds no match, and returns the default `none`. -/
theorem C5_counterexample :
    get_pickable_claimed fldPick (some "Hot") "Rating" none false = some "Hot" ∧
    get_pickable fldPick (some "Hot") "Rating" none false = .ok none := by
  constructor <;> rfl

theorem pyIndex_spec (labels : List String) (rf : String)
    (h : rf ∈ labels.map normalizeChoice) :
    ∃ l ∈ labels, normalizeChoice l = rf ∧
      labels.get? (pyIndex (labels.map normalizeChoice) rf) = some l := by
  induction labels with
  | nil => simp at h
  | cons l0 rest ih =>
      by_cases h0 : normalizeChoice l0 = rf
      · refine ⟨l0, by simp, h0, ?_⟩
        simp [pyIndex, h0]
      · have h' : rf ∈ rest.map normalizeChoice := by
          simp only [List.map_cons, List.mem_cons] at h
          exact h.resolve_left (fun hh => h0 hh.symm)
        obtain ⟨l, hl, hnorm, hget⟩ := ih h'
        refine ⟨l, by simp [hl], hnorm, ?_⟩
        simp only [List.map_cons, pyIndex]
        rw [if_neg (by simpa using h0)]
        simpa using hget

/-- C5 (amended): `get_pickable` compares the raw candidate verbatim
against the normalized active labels; on a match it returns the original
active label whose normalization equals the candidate; on no match with
`select_first` it returns the normalized form of the first active label;
on no match without `select_first` it returns the default. -/
theorem C5_get_pickable_amended (fld : List SFField) (rf sf_field : String)
    (dflt : Option String) (select_first : Bool) (labels : List String)
    (hpick : lookupStrs (sf_fields_description fld).pickable sf_field = some labels) :
    (rf ∈ labels.map normalizeChoice →
      ∃ l ∈ labels, normalizeChoice l = rf ∧
        get_pickable fld (some rf) sf_field dflt select_first = .ok (some l)) ∧
    (rf ∉ labels.map normalizeChoice → ∀ l0 rest, labels = l0 :: rest →
      get_pickable fld (some rf) sf_field dflt true = .ok (some (normalizeChoice l0))) ∧
    (rf ∉ labels.map normalizeChoice →
      get_pickable fld (some rf) sf_field dflt false = .ok dflt) := by
  refine ⟨?_, ?_, ?_⟩
  · intro hmem
    obtain ⟨l, hl, hnorm, hget⟩ := pyIndex_spec labels rf hmem
    refine ⟨l, hl, hnorm, ?_⟩
    unfold get_pickable
    rw [hpick]
    simp only [List.elem_eq_mem]
    rw [if_pos (by simp [hmem])]
    exact congrArg Except.ok hget
  · intro hmem l0 rest hcons
    subst hcons
    unfold get_pickable
    rw [hpick]
    simp only [List.elem_eq_mem]
    rw [if_neg (by simpa using hmem)]
    simp
  · intro hmem
    unfold get_pickable
    rw [hpick]
    simp only [List.elem_eq_mem]
    rw [if_neg (by simpa using hmem)]
    simp

/-- Witness for the amended C5 at a concrete schema: candidate `"hot"`
(already in normalized form) matches and returns the original label
`"Hot"`; an unmatched candidate with `select_first` returns the normalized
first label. -/
theorem C5_witness :
    (∃ l ∈ ["Hot"], normalizeChoice l = "hot" ∧
      get_pickable fldPick (some "hot") "Rating" none false = .ok (some l)) ∧
    get_pickable fldPick (some "zzz") "Rating" none true = .ok (some "hot") := by
  constructor
  · exact (C5_get_pickable_amended fldPick "hot" "Rating" none false ["Hot"] rfl).1
      (by decide)
  · exact (C5_get_pickable_amended fldPick "zzz" "Rating" none true ["Hot"] rfl).2.1
      (by decide) "Hot" [] rfl

/-- C8: `validate_output` is idempotent — when it succeeds on `m` with
payload `p`, running it again on `p` succeeds and returns `p` itself
(same fields, same values). -/
theorem C8_validate_output_idempotent (fld : List SFField) (m p : PyDict)
    (hok : validate_output fld m = .ok p) :
    validate_output fld p = .ok p := by
  unfold validate_output at hok ⊢
  split at hok
  · exact absurd hok (by simp)
  · rename_i hne
    rw [Except.ok.injEq] at hok
    subst hok
    rw [if_neg hne, Except.ok.injEq]
    rw [clean_payload_filter_key (allowedKey fld) (clean_payload m),
      clean_payload_idem m, List.filter_filter]
    simp

/-- Witness for C8 at a concrete schema and mapping. -/
theorem C8_witness :
    validate_output fld0 [("LastName", .vStr "Doe")] = .ok [("LastName", .vStr "Doe")] :=
  C8_validate_output_idempotent fld0 mapping0 [("LastName", .vStr "Doe")]
    (by simp [validate_output, fld0, mapping0, sf_fields_description, allowedKey,
      clean_payload, cleanValue, isEmptyItem, pyEndsWith]
      <;> decide)

/-! ### Quota guard `check_salesforce_limits` (client.py:95-114) -/

/-- One or more ASCII digits (`\d+`). -/
def allDigits (l : List Char) : Bool :=
  !l.isEmpty && l.all (fun c => c.isDigit)

/-- The number denoted by a digit string. -/
def digitsToNat (l : List Char) : Nat :=
  l.foldl (fun n c => n * 10 + (c.toNat - 48)) 0

/-- Strip an exact literal prefix, or fail. -/
def dropLiteral : List Char → List Char → Option (List Char)
  | [], rest => some rest
  | _ :: _, [] => none
  | p :: ps, c :: cs => if c = p then dropLiteral ps cs else none

/-- The regex match of client.py:99, `re.search("^api-usage=(\d+)/(\d+)$", s)`:
the whole header must be `api-usage=`, digits, `/`, digits; the two capture
groups are returned as numbers. -/
def parseSforceLimit (s : String) : Option (Nat × Nat) :=
  match dropLiteral "api-usage=".toList s.toList with
  | none => none
  | some rest =>
      match rest.span (fun c => c != '/') with
      | (a, '/' :: b) =>
          if allDigits a && allDigits b then some (digitsToNat a, digitsToNat b) else none
      | (_, _) => none

/-- The strict comparison `(remaining / allotted) * 100 > q` over exact
rationals, computed by cross-multiplication (`Rat.div` does not reduce in
the kernel); `percentExceeds_iff` proves it equivalent to the rational
inequality whenever `allotted` is non-zero. -/
def percentExceeds (remaining allotted : Nat) (q : ℚ) : Bool :=
  decide (q.num * (allotted : ℤ) < (remaining : ℤ) * 100 * (q.den : ℤ))

theorem percentExceeds_iff (remaining allotted : Nat) (q : ℚ) (h : allotted ≠ 0) :
    percentExceeds remaining allotted q = true ↔
      (remaining : ℚ) / (allotted : ℚ) * 100 > q := by
  have ha : (0 : ℚ) < (allotted : ℚ) := by exact_mod_cast Nat.pos_of_ne_zero h
  have hd : (0 : ℚ) < (q.den : ℚ) := by exact_mod_cast q.den_pos
  have key : ((q.num : ℚ) / (q.den : ℚ) < ((remaining : ℚ) * 100) / (allotted : ℚ)) ↔
      ((q.num : ℚ) * (allotted : ℚ) < (remaining : ℚ) * 100 * (q.den : ℚ)) :=
    div_lt_div_iff₀ hd ha
  rw [Rat.num_div_den q] at key
  simp only [percentExceeds, decide_eq_true_eq]
  constructor
  · intro hint
    rw [gt_iff_lt, div_mul_eq_mul_div]
    exact key.mpr (by exact_mod_cast hint)
  · intro hrat
    rw [gt_iff_lt, div_mul_eq_mul_div] at hrat
    exact_mod_cast key.mp hrat

/-- What a call to `check_salesforce_limits` does. -/
inductive LimitOutcome where
  | passed
  | quotaAbort
  | raised (e : PyErr)
  deriving DecidableEq, Repr

/-- `check_salesforce_limits` (client.py:95-114): a missing header makes
`re.search` receive `None` and raise `TypeError`; an unparseable header
passes; division by an allotted quota of zero raises `ZeroDivisionError`;
otherwise the run is aborted with `TargetSalesforceQuotaExceededException`
exactly when the used percentage strictly exceeds the configured threshold
(`quota_percent_total`, default 80). Python float division is modelled by
exact rational division. -/
def check_salesforce_limits (limit_info : Option String) (quota_percent_total : ℚ) :
    LimitOutcome :=
  match limit_info with
  | none => .raised .typeError
  | some s =>
      match parseSforceLimit s with
      | none => .passed
      | some (remaining, allotted) =>
          if allotted = 0 then .raised .zeroDivisionError
          else if percentExceeds remaining allotted quota_percent_total then .quotaAbort
          else .passed

/-! ### The request layer seen by the sinks -/

/-- The first element of a JSON-array error body, as read by
client.py:139-144 (`errorCode`, `fields`). -/
structure SFErrBody where
  errorCode : Option String
  fields : Option (List String)
  deriving DecidableEq, Repr

/-- How the PATCH-400 branch of `_request` (client.py:138-145) sees the
response body: `response.json()` raises `JSONDecodeError` when the body is
not JSON at all (`notJson`); a JSON body that is not a non-empty list
falls through to `validate_response` (`otherJson`); a non-empty JSON list
exposes its first element — `data[0] or dict()` — as an `SFErrBody`. -/
inductive RespJson where
  | notJson
  | otherJson
  | errList (e : SFErrBody)
  deriving DecidableEq, Repr

/-- An HTTP response, reduced to the observations the embedded code makes:
status, `json().get("id")`, the `Sforce-Limit-Info` header, the body text,
and the body as the PATCH-400 branch parses it. -/
structure Resp where
  status : Nat
  idVal : Option String
  limitHeader : Option String
  text : String
  json0 : RespJson
  deriving DecidableEq, Repr

/-- An HTTP request issued by the connector. -/
structure Req where
  method : String
  path : String
  body : PyDict

/-- The network as the sinks see it through `_request` (client.py:122-148):
one call either yields a response that passed `validate_response` or raises.
The internal retry/strip behavior of `_request` is modelled separately by
`underscore_request` below. -/
abbrev Oracle := Req → Except PyErr Resp

/-- `response.json().get("id")` as a Python value. -/
def respId (resp : Resp) : Value :=
  match resp.idVal with
  | some s => .vStr s
  | none => .vNull

/-- `request_api` (client.py:150-157): perform the request, then run
`check_salesforce_limits` on the response; its raised exceptions propagate
to the caller. -/
def request_api (oracle : Oracle) (quota : ℚ) (req : Req) : Except PyErr Resp :=
  match oracle req with
  | .error e => .error e
  | .ok resp =>
      match check_salesforce_limits resp.limitHeader quota with
      | .passed => .ok resp
      | .quotaAbort => .error .quotaExceeded
      | .raised e => .error e

/-- C10: a response without the `Sforce-Limit-Info` header makes
`check_salesforce_limits` raise `TypeError` (`re.search` on `None`), so
`request_api` fails for that call even though no quota was exceeded. -/
theorem C10_missing_limit_header (oracle : Oracle) (quota : ℚ) (req : Req) (resp : Resp)
    (hok : oracle req = .ok resp) (hmiss : resp.limitHeader = none) :
    check_salesforce_limits resp.limitHeader quota = .raised .typeError ∧
    request_api oracle quota req = .error .typeError := by
  constructor
  · rw [hmiss]
    rfl
  · simp [request_api, hok, hmiss, check_salesforce_limits]

/-- A successful response that carries no `Sforce-Limit-Info` header. -/
def respNoHeader : Resp := ⟨200, some "003xx", none, "", .otherJson⟩

/-- An oracle that always returns `respNoHeader`. -/
def oracleNoHeader : Oracle := fun _ => .ok respNoHeader

/-- Witness for C10 at a concrete request/response. -/
theorem C10_witness :
    check_salesforce_limits respNoHeader.limitHeader 80 = .raised .typeError ∧
    request_api oracleNoHeader 80 ⟨"GET", "sobjects/Contact/describe", []⟩ =
      .error .typeError :=
  C10_missing_limit_header oracleNoHeader 80 ⟨"GET", "sobjects/Contact/describe", []⟩
    respNoHeader rfl rfl

/-- C4 (amended, raise-condition part): for a header that parses as
`api-usage=used/allotted` with `allotted ≠ 0`, `check_salesforce_limits`
raises the quota abort exactly when `used/allotted` as a percentage
strictly exceeds the threshold; and whenever the check aborts on a
response obtained by `request_api`, the exception propagates out of
`request_api`. (That the whole run aborts is refuted separately: see the
C4 counterexample about `process_record`.) -/
theorem C4_quota_amended :
    (∀ (s : String) (used allotted : Nat) (q : ℚ),
      parseSforceLimit s = some (used, allotted) → allotted ≠ 0 →
      (check_salesforce_limits (some s) q = .quotaAbort ↔
        (used : ℚ) / (allotted : ℚ) * 100 > q)) ∧
    (∀ (oracle : Oracle) (q : ℚ) (req : Req) (resp : Resp),
      oracle req = .ok resp →
      check_salesforce_limits resp.limitHeader q = .quotaAbort →
      request_api oracle q req = .error .quotaExceeded) := by
  constructor
  · intro s used allotted q hparse hnz
    have hred : check_salesforce_limits (some s) q =
        if allotted = 0 then .raised .zeroDivisionError
        else if percentExceeds used allotted q then .quotaAbort
        else .passed := by
      unfold check_salesforce_limits
      show (match parseSforceLimit s with
        | none => LimitOutcome.passed
        | some (remaining, allotted) =>
          if allotted = 0 then LimitOutcome.raised PyErr.zeroDivisionError
          else if percentExceeds remaining allotted q = true then LimitOutcome.quotaAbort
          else LimitOutcome.passed) = _
      rw [hparse]
    rw [hred, if_neg hnz]
    have hiff := percentExceeds_iff used allotted q hnz
    by_cases hpe : percentExceeds used allotted q
    · rw [if_pos hpe]
      simpa using hiff.mp hpe
    · rw [if_neg hpe]
      constructor
      · intro h
        exact absurd h (by simp)
      · intro h
        exact absurd (hiff.mpr h) hpe
  · intro oracle q req resp hok hq
    simp [request_api, hok, hq]

/-- A response whose quota header reports 85/100 used. -/
def respQuota : Resp := ⟨200, some "001xx", some "api-usage=85/100", "", .otherJson⟩

/-- An oracle that always returns `respQuota`. -/
def oracleQuota : Oracle := fun _ => .ok respQuota

/-- Witness for the amended C4: `api-usage=85/100` against threshold 80
aborts, and the abort propagates out of `request_api`. -/
theorem C4_witness :
    (check_salesforce_limits (some "api-usage=85/100") 80 = .quotaAbort ↔
      (85 : ℚ) / (100 : ℚ) * 100 > 80) ∧
    request_api oracleQuota 80 ⟨"PATCH", "sobjects/Account/001", []⟩ =
      .error .quotaExceeded :=
  ⟨C4_quota_amended.1 "api-usage=85/100" 85 100 80 rfl (by norm_num),
   C4_quota_amended.2 oracleQuota 80 ⟨"PATCH", "sobjects/Account/001", []⟩ respQuota rfl
     (by rfl)⟩

/-! ### `only_upsert_empty_fields` (client.py:451-458 and sinks.py:1056-1062) -/

/-- `map_only_empty_fields` (client.py:451-458). `queryResult` is the
result of the SOQL query over the payload keys with the lookup filter;
when a record was found, only fields whose remote value is empty
(Python-falsy) survive, plus the identifier `Id`. -/
def map_only_empty_fields (mapping : PyDict) (queryResult : List PyDict) : PyDict :=
  match queryResult with
  | [] => mapping
  | d0 :: _ => mapping.filter (fun kv => !truthy (dgetD d0 kv.1) || kv.1 == "Id")

/-- sinks.py:1057-1062 (`FallbackSink.preprocess_record`): when a lookup
matched (`req` non-empty) and `only_upsert_empty_fields` is set, keep only
the fields that are empty on the existing record, then set `Id` from the
existing record (`KeyError` when the lookup row has no `Id`). -/
def fallback_only_empty_step (record : PyDict) (existing_record : PyDict)
    (only_upsert_empty_fields : Bool) : Except PyErr PyDict :=
  let record :=
    if only_upsert_empty_fields then
      record.filter (fun kv => !truthy (dgetD existing_record kv.1))
    else record
  match dget existing_record "Id" with
  | some idv => .ok (dset record "Id" idv)
  | none => .error .keyError

theorem dkeys_dset (d : PyDict) (k k2 : String) (v : Value) (hmem : k ∈ dkeys (dset d k2 v)) :
    k ∈ dkeys d ∨ k = k2 := by
  unfold dset at hmem
  split at hmem
  · left
    unfold dkeys at hmem ⊢
    obtain ⟨kv, hkv, hk⟩ := List.mem_map.mp hmem
    obtain ⟨kv2, hkv2, hmapped⟩ := List.mem_map.mp hkv
    refine List.mem_map.mpr ⟨kv2, hkv2, ?_⟩
    by_cases he : kv2.1 == k2
    · rw [if_pos he] at hmapped
      rw [← hmapped] at hk
      exact hk
    · rw [if_neg he] at hmapped
      rw [← hmapped] at hk
      exact hk
  · unfold dkeys at hmem ⊢
    rw [List.map_append, List.mem_append] at hmem
    rcases hmem with h | h
    · exact Or.inl h
    · simp at h
      exact Or.inr h

theorem dcontains_dset_self (d : PyDict) (k : String) (v : Value) :
    dcontains (dset d k v) k = true := by
  unfold dset
  split
  · rename_i hc
    unfold dcontains at hc ⊢
    obtain ⟨kv, hkv, hbeq⟩ := List.any_eq_true.mp hc
    refine List.any_eq_true.mpr ⟨(kv.1, v), ?_, hbeq⟩
    refine List.mem_map.mpr ⟨kv, hkv, ?_⟩
    rw [if_pos hbeq]
  · unfold dcontains
    refine List.any_eq_true.mpr ⟨(k, v), by simp, by simp⟩

/-- C2: with `only_upsert_empty_fields` on and a resolved existing record,
every payload field whose value on the existing remote record is non-empty
(Python-truthy) is absent from the final payload, except the identifier
`Id` — both in `map_only_empty_fields` (used by the typed sinks) and in
the `FallbackSink.preprocess_record` step, which additionally always keeps
`Id` (set from the existing record). -/
theorem C2_only_upsert_empty_fields
    (mapping d0 : PyDict) (rest : List PyDict) (k : String)
    (record existing out : PyDict)
    (hpop : truthy (dgetD d0 k) = true) (hid : k ≠ "Id")
    (hpop2 : truthy (dgetD existing k) = true)
    (hstep : fallback_only_empty_step record existing true = .ok out) :
    k ∉ dkeys (map_only_empty_fields mapping (d0 :: rest)) ∧
    k ∉ dkeys out ∧ dcontains out "Id" = true := by
  unfold fallback_only_empty_step at hstep
  cases hidv : dget existing "Id" with
  | none =>
      rw [hidv] at hstep
      simp at hstep
  | some idv =>
      rw [hidv] at hstep
      simp only [if_true, eq_self_iff_true, Except.ok.injEq] at hstep
      refine ⟨?_, ?_, ?_⟩
      · intro hmem
        unfold map_only_empty_fields dkeys at hmem
        obtain ⟨kv, hkv, hk⟩ := List.mem_map.mp hmem
        have hfilter := (List.mem_filter.mp hkv).2
        subst hk
        rw [hpop] at hfilter
        simp at hfilter
        exact hid hfilter
      · intro hmem
        rw [← hstep] at hmem
        rcases dkeys_dset _ k "Id" idv hmem with h | h
        · unfold dkeys at h
          obtain ⟨kv, hkv, hk⟩ := List.mem_map.mp h
          have hfilter := (List.mem_filter.mp hkv).2
          subst hk
          rw [hpop2] at hfilter
          simp at hfilter
        · exact hid h
      · rw [← hstep]
        exact dcontains_dset_self _ "Id" idv

/-- Witness for C2: the field `Phone` is populated remotely and dropped;
`Id` is kept. -/
theorem C2_witness :
    "Phone" ∉ dkeys (map_only_empty_fields
        [("Phone", .vStr "555"), ("Email", .vStr "a@x.com")]
        [[("Phone", .vStr "111"), ("Id", .vStr "003xx")]]) ∧
    "Phone" ∉ dkeys [("Email", .vStr "a@x.com"), ("Id", .vStr "003xx")] ∧
    dcontains [("Email", .vStr "a@x.com"), ("Id", .vStr "003xx")] "Id" = true :=
  C2_only_upsert_empty_fields
    [("Phone", .vStr "555"), ("Email", .vStr "a@x.com")]
    [("Phone", .vStr "111"), ("Id", .vStr "003xx")] []
    "Phone"
    [("Phone", .vStr "555"), ("Email", .vStr "a@x.com")]
    [("Phone", .vStr "111"), ("Id", .vStr "003xx")]
    [("Email", .vStr "a@x.com"), ("Id", .vStr "003xx")]
    rfl (by decide) rfl rfl

/-! ### Upsert executors -/

/-- Whether the first character list occurs contiguously in the second. -/
def infixOfChars : List Char → List Char → Bool
  | n, [] => n.isEmpty
  | n, c :: rest => n.isPrefixOf (c :: rest) || infixOfChars n rest

/-- Python `needle in haystack` on strings. -/
def pyIn (needle haystack : String) : Bool :=
  infixOfChars needle.toList haystack.toList

/-- `str(v)` as used by f-string interpolation. Container and datetime
renderings are approximate; no theorem exercises them. -/
def pyStr : Value → String
  | .vNull => "None"
  | .vBool true => "True"
  | .vBool false => "False"
  | .vInt n => n.repr
  | .vStr s => s
  | .vDatetime dt => formatDatetime dt
  | .vDict _ => "{...}"
  | .vList _ => "[...]"

/-- `str(e)` for the exceptions the upsert paths inspect: a
`FatalAPIError` renders as the response text it was built from
(client.py:78-81); the renderings of the other exceptions never contain
the error-code token tested by `FallbackSink.upsert_record`. -/
def errText : PyErr → String
  | .fatalAPIError t => t
  | .retriableAPIError => "RetriableAPIError"
  | .quotaExceeded => "TargetSalesforceQuotaExceededException"
  | .typeError => "TypeError"
  | .keyError => "KeyError"
  | .indexError => "IndexError"
  | .unboundLocalError => "UnboundLocalError"
  | .noCreatableFields => "NoCreatableFieldsException"
  | .zeroDivisionError => "ZeroDivisionError"
  | .jsonDecodeError => "JSONDecodeError"
  | .exn => "Exception"
  | .streamEnded => "StreamEnded"

/-- What a call to `upsert_record` does: return an `(id, success,
state_updates)` triple, fall through returning Python `None`, or raise. -/
inductive UpsertOut where
  | ret (id : Value) (success : Bool) (state : PyDict)
  | retNone
  | raised (e : PyErr)

/-- The external-id loop of `SalesforceV3Sink.upsert_record`
(client.py:170-183): for each external-id field with a truthy value, PATCH
to `endpoint/field/value` with that field removed from the body. The bare
`except:` swallows every failure and moves to the next field; a non-string
value makes the `"/".join` raise `TypeError` before any request is
issued, also swallowed. -/
def ext_id_loop (oracle : Oracle) (quota : ℚ) (endpoint : String) (record : PyDict) :
    List String → List Req × Option Value
  | [] => ([], none)
  | f :: rest =>
      if truthy (dgetD record f) then
        match dgetD record f with
        | .vStr s =>
            let req : Req := ⟨"PATCH", endpoint ++ "/" ++ f ++ "/" ++ s, dpop record f⟩
            match request_api oracle quota req with
            | .ok resp => ([req], some (respId resp))
            | .error _ =>
                let r := ext_id_loop oracle quota endpoint record rest
                (req :: r.1, r.2)
        | _ => ext_id_loop oracle quota endpoint record rest
      else ext_id_loop oracle quota endpoint record rest

/-- `SalesforceV3Sink.upsert_record` (client.py:159-201): empty records
short-circuit; then the external-id loop; then, when the record carries an
`Id` key, `ContactId` and `Id` are removed and a PATCH to `endpoint/Id`
is issued whose failure propagates (no fallback); otherwise a POST. The
result is the pair (requests issued, outcome). -/
def upsert_record (endpoint : String) (fld : List SFField) (oracle : Oracle) (quota : ℚ)
    (record : PyDict) : List Req × UpsertOut :=
  if record.isEmpty then
    ([], .ret (.vStr "") true [("state", .vStr "no fields to post or update")])
  else
    match ext_id_loop oracle quota endpoint record (sf_fields_description fld).external_ids with
    | (tr, some id) => (tr, .ret id true [])
    | (tr, none) =>
        if dcontains record "Id" then
          let record1 := dpop record "ContactId"
          match dget record1 "Id" with
          | some (.vStr i) =>
              let req : Req := ⟨"PATCH", endpoint ++ "/" ++ i, dpop record1 "Id"⟩
              (tr ++ [req],
                match request_api oracle quota req with
                | .ok resp => .ret (respId resp) true []
                | .error e => .raised e)
          | _ => (tr, .raised .typeError)
        else
          let req : Req := ⟨"POST", endpoint, record⟩
          (tr ++ [req],
            match request_api oracle quota req with
            | .ok resp => .ret (respId resp) true []
            | .error e => .raised e)

/-- The field loop of `ContactsSink.upsert_record` (sinks.py:262-288).
`assignCampaignReqs`/`assignTopicReqs` stand for the requests
`assign_to_campaign`/`assign_to_topic` (sinks.py:326-432) would issue;
the theorems below fix `campaigns`/`topics` to `false` so none are
emitted. A PATCH failure re-raises (`raise e`, sinks.py:288). When the
body left after removing the field and `campaign_member_fields` is empty,
no request is issued and the field value itself is returned as the id. -/
def contacts_field_loop (oracle : Oracle) (quota : ℚ) (endpoint : String)
    (campaigns topics : Bool) (assignCampaignReqs assignTopicReqs : List Req)
    (record : PyDict) : List String → List Req × Option UpsertOut
  | [] => ([], none)
  | f :: rest =>
      if truthy (dgetD record f) then
        let update_record := dpop (dpop record f) "campaign_member_fields"
        let extra := (if campaigns then assignCampaignReqs else []) ++
          (if topics then assignTopicReqs else [])
        if update_record.isEmpty then
          (extra, some (.ret (dgetD record f) true []))
        else
          match dgetD record f with
          | .vStr s =>
              let req : Req := ⟨"PATCH", endpoint ++ "/" ++ f ++ "/" ++ s, update_record⟩
              match request_api oracle quota req with
              | .ok resp => (req :: extra, some (.ret (respId resp) true []))
              | .error e => ([req], some (.raised e))
          | _ => ([], some (.raised .typeError))
      else contacts_field_loop oracle quota endpoint campaigns topics
        assignCampaignReqs assignTopicReqs record rest

/-- `ContactsSink.upsert_record` (sinks.py:250-304): with a truthy `Id`
the loop runs over `["Id"]` alone, else over the external-id fields; when
the loop falls through and the record is non-empty, a POST is issued whose
failure re-raises. -/
def contacts_upsert_record (endpoint : String) (fld : List SFField) (oracle : Oracle)
    (quota : ℚ) (campaigns topics : Bool) (aReqs tReqs : List Req) (record : PyDict) :
    List Req × UpsertOut :=
  let fields := if truthy (dgetD record "Id") then ["Id"]
    else (sf_fields_description fld).external_ids
  match contacts_field_loop oracle quota endpoint campaigns topics aReqs tReqs record fields with
  | (tr, some out) => (tr, out)
  | (tr, none) =>
      if !record.isEmpty then
        let body := dpop record "campaign_member_fields"
        let req : Req := ⟨"POST", endpoint, body⟩
        let extra := (if campaigns then aReqs else []) ++ (if topics then tReqs else [])
        match request_api oracle quota req with
        | .ok resp => (tr ++ req :: extra, .ret (respId resp) true [])
        | .error e => (tr ++ [req], .raised e)
      else (tr, .retNone)

/-- The update-fields loop of `FallbackSink.upsert_record`
(sinks.py:1143-1153): PATCH to `endpoint/id_field/value` with the field
removed from the body; every failure (including the `TypeError` a
non-string value causes in the `"/".join`, before any request) is caught
and the loop continues. On success `link_attachment_to_object` runs
(modelled by `linkTrace`, empty for sinks other than `ContentVersion`). -/
def fallback_update_loop (oracle : Oracle) (quota : ℚ) (endpoint : String)
    (record : PyDict) (state_updates : PyDict) (linkTrace : List Req) :
    List String → List Req × Option UpsertOut
  | [] => ([], none)
  | idf :: rest =>
      match dgetD record idf with
      | .vStr s =>
          let req : Req := ⟨"PATCH", endpoint ++ "/" ++ idf ++ "/" ++ s, dpop record idf⟩
          match request_api oracle quota req with
          | .ok resp => (req :: linkTrace, some (.ret (respId resp) true state_updates))
          | .error _ =>
              let r := fallback_update_loop oracle quota endpoint record state_updates
                linkTrace rest
              (req :: r.1, r.2)
      | _ => fallback_update_loop oracle quota endpoint record state_updates linkTrace rest

/-- The POST tail of `FallbackSink.upsert_record` (sinks.py:1155-1186):
POST the record; on an exception whose text contains
`INVALID_FIELD_FOR_INSERT_UPDATE`, parse the offending fields out of the
text (`parseErrFields` models `json.loads(str(e))[0]["fields"]`), remove
them and POST once more, re-raising that second failure; other exceptions
re-raise. The `_target.read_only_fields` bookkeeping (which only affects
later records) is not modelled. -/
def fallback_post (oracle : Oracle) (quota : ℚ) (endpoint : String) (record : PyDict)
    (state_updates : PyDict) (linkTrace : List Req)
    (parseErrFields : String → Option (List String)) : List Req × UpsertOut :=
  let req : Req := ⟨"POST", endpoint, record⟩
  match request_api oracle quota req with
  | .ok resp => (req :: linkTrace, .ret (respId resp) true state_updates)
  | .error e =>
      if pyIn "INVALID_FIELD_FOR_INSERT_UPDATE" (errText e) then
        match parseErrFields (errText e) with
        | none => ([req], .raised .exn)
        | some fs =>
            let record2 := record.filter (fun kv => !fs.contains kv.1)
            let req2 : Req := ⟨"POST", endpoint, record2⟩
            match request_api oracle quota req2 with
            | .ok resp => ([req, req2], .ret (respId resp) true state_updates)
            | .error e2 => ([req, req2], .raised e2)
      else ([req], .raised e)

/-- The part of `FallbackSink.upsert_record` after the explicit-Id branch:
the update-fields loop, then the POST tail. -/
def fallback_tail (oracle : Oracle) (quota : ℚ) (endpoint : String) (record : PyDict)
    (state_updates : PyDict) (linkTrace : List Req)
    (parseErrFields : String → Option (List String))
    (possible_update_fields : List String) : List Req × UpsertOut :=
  match fallback_update_loop oracle quota endpoint record state_updates linkTrace
      possible_update_fields with
  | (tr, some out) => (tr, out)
  | (tr, none) =>
      let r := fallback_post oracle quota endpoint record state_updates linkTrace
        parseErrFields
      (tr ++ r.1, r.2)

/-- `FallbackSink.upsert_record` (sinks.py:1074-1186). With a truthy
`Id`/`id` the record is PATCHed to `endpoint/object_id`; the `try/except`
of sinks.py:1130-1142 swallows a PATCH failure and execution falls
through to the update-fields loop and the POST — the record is then
POSTed without its `Id`. `record.pop("Id")` outside the `try` raises
`KeyError` when the branch was entered via a truthy `id` with no `Id` key
present. -/
def fallback_upsert_record (sinkName : String) (fld : List SFField) (oracle : Oracle)
    (quota : ℚ) (parseErrFields : String → Option (List String)) (linkReqs : List Req)
    (record : PyDict) : List Req × UpsertOut :=
  if record.isEmpty then ([], .ret .vNull false [])
  else
    let object_type := dgetD record "object_type"
    let record := dpop record "object_type"
    if record.isEmpty then ([], .retNone)
    else
      let record := if sinkName == "ContentVersion" then dpop record "LinkedEntityId"
        else record
      let linkTrace := if sinkName == "ContentVersion" then linkReqs else []
      let fields_desc := sf_fields_description fld
      let possible_update_fields := fields_desc.external_ids.filter
        (fun f => dcontains record f)
      let state_updates : PyDict :=
        if truthy (dgetD record "externalId") then
          [("externalId", dgetD record "externalId")]
        else
          match possible_update_fields with
          | pf :: _ => [("externalId", dgetD record pf)]
          | [] => []
      let endpoint := "sobjects/" ++ pyStr object_type
      if truthy (dgetD record "Id") || truthy (dgetD record "id") then
        if !dcontains record "Id" then ([], .raised .keyError)
        else
          let v1 := dgetD record "Id"
          let record1 := dpop record "Id"
          match (if truthy v1 then some (v1, record1)
                 else if dcontains record1 "id" then
                   some (dgetD record1 "id", dpop record1 "id")
                 else none) with
          | none => ([], .raised .keyError)
          | some (object_id, record2) =>
              match object_id with
              | .vStr i =>
                  let req : Req := ⟨"PATCH", endpoint ++ "/" ++ i, record2⟩
                  match request_api oracle quota req with
                  | .ok resp =>
                      if resp.status == 204 then ([req], .ret object_id true state_updates)
                      else (req :: linkTrace, .ret (respId resp) true state_updates)
                  | .error _ =>
                      let r := fallback_tail oracle quota endpoint record2 state_updates
                        linkTrace parseErrFields possible_update_fields
                      (req :: r.1, r.2)
              | _ => ([], .raised .typeError)
      else
        fallback_tail oracle quota endpoint record state_updates linkTrace parseErrFields
          possible_update_fields

/-- `process_record` (client.py:478-524), for a sink using the base
`upsert_record`. `existingState` models `get_existing_state(hash)` (a
duplicate short-circuits). The returned dict is the state entry appended
to the bookmarks; the summary counters are not modelled. Every exception
from `upsert_record` — and the `TypeError` from unpacking a `None`
return — is caught by the bare `except` (client.py:498-502) and recorded
as the error string of this record, so `process_record` itself never
raises and the run continues with the next record. -/
def process_record (endpoint : String) (fld : List SFField) (oracle : Oracle) (quota : ℚ)
    (existingState : Option PyDict) (hash : String) (record : PyDict) : PyDict :=
  match existingState with
  | some s => s
  | none =>
      let external_id := dgetD record "externalId"
      let record := dpop record "externalId"
      let out := (upsert_record endpoint fld oracle quota record).2
      let idSuccessUpdates : Value × Bool × PyDict :=
        match out with
        | .ret id success st => (id, success, st)
        | .retNone => (.vNull, false, [("error", .vStr (errText .typeError))])
        | .raised e => (.vNull, false, [("error", .vStr (errText e))])
      let state : PyDict := [("hash", .vStr hash)]
      let state := dset state "success" (.vBool idSuccessUpdates.2.1)
      let state := if truthy idSuccessUpdates.1 then dset state "id" idSuccessUpdates.1
        else state
      let state := if truthy external_id then dset state "externalId" external_id else state
      let state_updates := dpop idSuccessUpdates.2.2 "existing"
      state_updates.foldl (fun st kv => dset st kv.1 kv.2) state

/-! ### Facts about dict operations, used by the C1 theorems -/

theorem dget_isEmpty_false {d : PyDict} {k : String} {v : Value} (h : dget d k = some v) :
    d.isEmpty = false := by
  cases d with
  | nil => simp [dget] at h
  | cons kv rest => rfl

theorem dget_contains {d : PyDict} {k : String} {v : Value} (h : dget d k = some v) :
    dcontains d k = true := by
  unfold dget at h
  cases hf : List.find? (fun kv => kv.1 == k) d with
  | none => rw [hf] at h; simp at h
  | some kv =>
      have hmem := List.mem_of_find?_eq_some hf
      have hpred := List.find?_some hf
      exact List.any_eq_true.mpr ⟨kv, hmem, hpred⟩

theorem dget_dpop_ne (d : PyDict) (k k2 : String) (hne : k ≠ k2) :
    dget (dpop d k2) k = dget d k := by
  induction d with
  | nil => rfl
  | cons kv rest ih =>
      by_cases h2 : kv.1 = k2
      · have hpred : (kv.1 != k2) = false := by simp [h2]
        have hk : (kv.1 == k) = false := by
          subst h2
          simp only [beq_eq_false_iff_ne, ne_eq]
          exact fun hh => hne hh.symm
        unfold dpop dget at ih ⊢
        rw [List.filter_cons, hpred]
        simp only [Bool.false_eq_true, if_false]
        rw [List.find?_cons_of_neg _ (by simp [hk])]
        exact ih
      · have hpred : (kv.1 != k2) = true := by simp [h2]
        unfold dpop dget at ih ⊢
        rw [List.filter_cons, hpred]
        simp only [if_true]
        by_cases h1 : kv.1 = k
        · rw [List.find?_cons_of_pos _ (by simp [h1]), List.find?_cons_of_pos _ (by simp [h1])]
        · rw [List.find?_cons_of_neg _ (by simp [h1]), List.find?_cons_of_neg _ (by simp [h1])]
          exact ih

theorem ext_id_loop_all_falsy (oracle : Oracle) (q : ℚ) (endpoint : String)
    (record : PyDict) (l : List String)
    (h : ∀ f ∈ l, truthy (dgetD record f) = false) :
    ext_id_loop oracle q endpoint record l = ([], none) := by
  induction l with
  | nil => rfl
  | cons f rest ih =>
      unfold ext_id_loop
      rw [if_neg (by simp [h f (by simp)])]
      exact ih (fun g hg => h g (by simp [hg]))

theorem upsert_record_id_trace (endpoint : String) (fld : List SFField) (oracle : Oracle)
    (q : ℚ) (record : PyDict) (i : String)
    (hid : dget record "Id" = some (.vStr i))
    (hext : ∀ f ∈ (sf_fields_description fld).external_ids, truthy (dgetD record f) = false) :
    (upsert_record endpoint fld oracle q record).1 =
      [⟨"PATCH", endpoint ++ "/" ++ i, dpop (dpop record "ContactId") "Id"⟩] := by
  have h0 : record.isEmpty = false := dget_isEmpty_false hid
  have hloop := ext_id_loop_all_falsy oracle q endpoint record _ hext
  have hcont : dcontains record "Id" = true := dget_contains hid
  have hget1 : dget (dpop record "ContactId") "Id" = some (.vStr i) := by
    rw [dget_dpop_ne record "Id" "ContactId" (by decide)]
    exact hid
  simp only [upsert_record, h0, Bool.false_eq_true, if_false, hloop, hcont, if_true, hget1]
  simp

theorem contacts_upsert_id_trace (endpoint : String) (fld : List SFField) (oracle : Oracle)
    (q : ℚ) (aReqs tReqs : List Req) (record : PyDict) (i : String)
    (hid : dget record "Id" = some (.vStr i)) (hi : i ≠ "") :
    (contacts_upsert_record endpoint fld oracle q false false aReqs tReqs record).1 = [] ∨
    (contacts_upsert_record endpoint fld oracle q false false aReqs tReqs record).1 =
      [⟨"PATCH", endpoint ++ "/" ++ "Id" ++ "/" ++ i,
        dpop (dpop record "Id") "campaign_member_fields"⟩] := by
  have hgetD : dgetD record "Id" = .vStr i := by
    unfold dgetD
    rw [hid]
    rfl
  have htr2 : truthy (Value.vStr i) = true := by simp [truthy, hi]
  unfold contacts_upsert_record contacts_field_loop
  simp only [hgetD, htr2, if_true, Bool.false_eq_true, if_false, List.nil_append]
  by_cases hur : (dpop (dpop record "Id") "campaign_member_fields").isEmpty
  · rw [if_pos hur]
    left
    rfl
  · rw [if_neg hur]
    cases hreq : request_api oracle q ⟨"PATCH", endpoint ++ "/" ++ "Id" ++ "/" ++ i,
        dpop (dpop record "Id") "campaign_member_fields"⟩ with
    | ok resp =>
        right
        rfl
    | error e =>
        right
        rfl

theorem fallback_upsert_id_trace (sinkName : String) (fld : List SFField) (oracle : Oracle)
    (q : ℚ) (pef : String → Option (List String)) (linkReqs : List Req)
    (record : PyDict) (i : String)
    (hcv : (sinkName == "ContentVersion") = false)
    (hid : dget (dpop record "object_type") "Id" = some (.vStr i)) (hi : i ≠ "") :
    ((fallback_upsert_record sinkName fld oracle q pef linkReqs record).1.head? =
      some ⟨"PATCH", "sobjects/" ++ pyStr (dgetD record "object_type") ++ "/" ++ i,
        dpop (dpop record "object_type") "Id"⟩) ∧
    (∀ resp,
      request_api oracle q
          ⟨"PATCH", "sobjects/" ++ pyStr (dgetD record "object_type") ++ "/" ++ i,
            dpop (dpop record "object_type") "Id"⟩ = .ok resp →
      (fallback_upsert_record sinkName fld oracle q pef linkReqs record).1 =
        [⟨"PATCH", "sobjects/" ++ pyStr (dgetD record "object_type") ++ "/" ++ i,
          dpop (dpop record "object_type") "Id"⟩]) := by
  have h1 : (dpop record "object_type").isEmpty = false := dget_isEmpty_false hid
  have h0 : record.isEmpty = false := by
    cases record with
    | nil => simp [dpop] at h1
    | cons kv rest => rfl
  have hgetD : dgetD (dpop record "object_type") "Id" = .vStr i := by
    unfold dgetD
    rw [hid]
    rfl
  have htr2 : truthy (Value.vStr i) = true := by simp [truthy, hi]
  have hcont : dcontains (dpop record "object_type") "Id" = true := dget_contains hid
  unfold fallback_upsert_record
  simp only [h0, Bool.false_eq_true, if_false, h1, hcv, hgetD, htr2, hcont, Bool.true_or,
    if_true, Bool.not_true]
  cases hreq : request_api oracle q
      ⟨"PATCH", "sobjects/" ++ pyStr (dgetD record "object_type") ++ "/" ++ i,
        dpop (dpop record "object_type") "Id"⟩ with
  | ok resp =>
      dsimp only
      constructor
      · by_cases h204 : resp.status == 204
        · rw [if_pos h204]
          rfl
        · rw [if_neg h204]
          rfl
      · intro resp2 hok2
        by_cases h204 : resp.status == 204
        · rw [if_pos h204]
        · rw [if_neg h204]
  | error e =>
      dsimp only
      constructor
      · rfl
      · intro resp2 hok2
        simp at hok2

/-- C1 (amended): a record with an explicit remote Id issues a PATCH to a
path containing that Id, but the original claim needs three amendments
visible in the code. (1) `SalesforceV3Sink.upsert_record` PATCHes
`endpoint/Id` and never POSTs — provided no truthy external-id field
pre-empts the Id branch (we assume none here); its PATCH failure
propagates. (2) `ContactsSink.upsert_record` either issues exactly that
single PATCH (to `endpoint/Id/value`) or, when nothing beyond the Id is
left to send, no request at all; it never POSTs for such a record.
(3) `FallbackSink.upsert_record` issues the PATCH first, but when the
PATCH fails it falls back to further PATCH/POST requests (see the C1
counterexample); only when the PATCH succeeds is it the sole request. -/
theorem C1_explicit_id_amended :
    (∀ (endpoint : String) (fld : List SFField) (oracle : Oracle) (q : ℚ)
        (record : PyDict) (i : String),
      dget record "Id" = some (.vStr i) →
      (∀ f ∈ (sf_fields_description fld).external_ids, truthy (dgetD record f) = false) →
      (upsert_record endpoint fld oracle q record).1 =
        [⟨"PATCH", endpoint ++ "/" ++ i, dpop (dpop record "ContactId") "Id"⟩]) ∧
    (∀ (endpoint : String) (fld : List SFField) (oracle : Oracle) (q : ℚ)
        (aReqs tReqs : List Req) (record : PyDict) (i : String),
      dget record "Id" = some (.vStr i) → i ≠ "" →
      (contacts_upsert_record endpoint fld oracle q false false aReqs tReqs record).1 = [] ∨
      (contacts_upsert_record endpoint fld oracle q false false aReqs tReqs record).1 =
        [⟨"PATCH", endpoint ++ "/" ++ "Id" ++ "/" ++ i,
          dpop (dpop record "Id") "campaign_member_fields"⟩]) ∧
    (∀ (sinkName : String) (fld : List SFField) (oracle : Oracle) (q : ℚ)
        (pef : String → Option (List String)) (linkReqs : List Req)
        (record : PyDict) (i : String),
      (sinkName == "ContentVersion") = false →
      dget (dpop record "object_type") "Id" = some (.vStr i) → i ≠ "" →
      ((fallback_upsert_record sinkName fld oracle q pef linkReqs record).1.head? =
        some ⟨"PATCH", "sobjects/" ++ pyStr (dgetD record "object_type") ++ "/" ++ i,
          dpop (dpop record "object_type") "Id"⟩) ∧
      (∀ resp,
        request_api oracle q
            ⟨"PATCH", "sobjects/" ++ pyStr (dgetD record "object_type") ++ "/" ++ i,
              dpop (dpop record "object_type") "Id"⟩ = .ok resp →
        (fallback_upsert_record sinkName fld oracle q pef linkReqs record).1 =
          [⟨"PATCH", "sobjects/" ++ pyStr (dgetD record "object_type") ++ "/" ++ i,
            dpop (dpop record "object_type") "Id"⟩])) :=
  ⟨upsert_record_id_trace, contacts_upsert_id_trace, fallback_upsert_id_trace⟩

/-- A record carrying an explicit Id, as `FallbackSink.upsert_record`
receives it (the preprocessed record carries `object_type`). -/
def recFB : PyDict := [("object_type", .vStr "Account"), ("Id", .vStr "001")]

/-- A successful creation response whose quota header is far below the
threshold. -/
def respCreated : Resp := ⟨201, some "005", some "api-usage=1/100", "", .otherJson⟩

/-- A network where every PATCH fails fatally and every POST succeeds. -/
def oracleC1 : Oracle := fun req =>
  if req.method == "POST" then .ok respCreated else .error (.fatalAPIError "boom")

/-- Counterexample to C1 as stated: for a record with an explicit Id whose
PATCH attempt fails, `FallbackSink.upsert_record` catches the failure and
falls through to a POST for that same record — the claim says a POST is
never issued, including when the PATCH fails. -/
theorem C1_counterexample :
    truthy (dgetD (dpop recFB "object_type") "Id") = true ∧
    (fallback_upsert_record "Fallback" [] oracleC1 80 (fun _ => none) [] recFB).1 =
      [⟨"PATCH", "sobjects/Account/001", []⟩, ⟨"POST", "sobjects/Account", []⟩] := by
  constructor
  · rfl
  · rfl

/-- A record with an explicit Id for the base and Contacts sinks. -/
def recBase : PyDict := [("Id", .vStr "001"), ("Name", .vStr "A")]

/-- Witness for the amended C1 at concrete records, schema and network. -/
theorem C1_witness :
    ((upsert_record "sobjects/Account" [] oracleNoHeader 80 recBase).1 =
      [⟨"PATCH", "sobjects/Account" ++ "/" ++ "001", dpop (dpop recBase "ContactId") "Id"⟩]) ∧
    ((contacts_upsert_record "sobjects/Contact" [] oracleNoHeader 80 false false [] []
        recBase).1 = [] ∨
      (contacts_upsert_record "sobjects/Contact" [] oracleNoHeader 80 false false [] []
        recBase).1 =
        [⟨"PATCH", "sobjects/Contact" ++ "/" ++ "Id" ++ "/" ++ "001",
          dpop (dpop recBase "Id") "campaign_member_fields"⟩]) ∧
    ((fallback_upsert_record "Fallback" [] oracleNoHeader 80 (fun _ => none) [] recFB).1.head? =
      some ⟨"PATCH", "sobjects/" ++ pyStr (dgetD recFB "object_type") ++ "/" ++ "001",
        dpop (dpop recFB "object_type") "Id"⟩) :=
  ⟨C1_explicit_id_amended.1 "sobjects/Account" [] oracleNoHeader 80 recBase "001" rfl
      (by simp [sf_fields_description]),
   C1_explicit_id_amended.2.1 "sobjects/Contact" [] oracleNoHeader 80 [] [] recBase "001"
      rfl (by decide),
   (C1_explicit_id_amended.2.2 "Fallback" [] oracleNoHeader 80 (fun _ => none) [] recFB
      "001" rfl rfl (by decide)).1⟩

/-- Counterexample to C4 as stated: the quota condition holds for the
response (85/100 used against threshold 80), `check_salesforce_limits`
raises, but `process_record` catches the exception (client.py:498-502)
and returns an ordinary failed-record state — the run is not aborted and
the next record would be processed normally. -/
theorem C4_counterexample :
    check_salesforce_limits (some "api-usage=85/100") 80 = .quotaAbort ∧
    process_record "sobjects/Account" [] oracleQuota 80 none "h1"
        [("Id", .vStr "001"), ("Name", .vStr "Acme")] =
      [("hash", .vStr "h1"), ("success", .vBool false),
        ("error", .vStr "TargetSalesforceQuotaExceededException")] := by
  constructor
  · rfl
  · rfl

/-! ### `_request` retries (client.py:116-148) and response validation -/

/-- `validate_response` (client.py:71-81): 429 and 5xx raise
`RetriableAPIError`; any other 4xx raises `FatalAPIError` carrying the
response text unchanged; everything else passes. -/
def validate_response (r : Resp) : Option PyErr :=
  if r.status == 429 || (500 ≤ r.status && r.status < 600) then some .retriableAPIError
  else if 400 ≤ r.status && r.status < 500 then some (.fatalAPIError r.text)
  else none

/-- What the PATCH-400 check of client.py:138-145 decides. -/
inductive StripOutcome where
  | strip (fields : Option (List String))
  | jsonError
  | no
  deriving DecidableEq, Repr

/-- The PATCH-400 check of client.py:138-145. `strip fs` means the strip
branch is taken with the fields `fs` (`strip none`: the error names no
`fields` entry, so `k not in None` raises `TypeError`); `jsonError` means
the unguarded `response.json()` at client.py:139 raises `JSONDecodeError`
because the 400 body is not JSON; `no` means the branch is not taken (not
a PATCH, not a 400, body not a non-empty error list, or a different error
code) and `validate_response` decides. -/
def stripCheck (m : String) (r : Resp) : StripOutcome :=
  if m == "PATCH" && r.status == 400 then
    match r.json0 with
    | .notJson => .jsonError
    | .errList err =>
        if err.errorCode == some "INVALID_FIELD_FOR_INSERT_UPDATE" then .strip err.fields
        else .no
    | .otherJson => .no
  else .no

/-- `_request` under its `backoff` decorator (client.py:116-148), driven
by the stream of responses successive physical sends receive.
`backoffLeft` is the remaining attempt budget of the current backoff
scope (`max_tries=5`); the INVALID_FIELD strip branch re-enters the
decorated `_request`, opening a fresh scope with a full budget. Result:
(requests sent, outcome, remaining stream). A `RetriableAPIError`
surfacing from a nested (stripped) call is surfaced to the caller here,
where the source would let the outer backoff scope retry the outer
request; no theorem below exercises a run where that difference shows.
The artificial `.streamEnded` error marks exhaustion of the given
stream. -/
def underscore_request (backoffLeft : Nat) (stream : List Resp) (m p : String)
    (b : PyDict) : List Req × Except PyErr Resp × List Resp :=
  match stream with
  | [] => ([], .error .streamEnded, [])
  | r :: rest =>
      let req : Req := ⟨m, p, b⟩
      match stripCheck m r with
      | .strip (some fs) =>
          let res := underscore_request 5 rest m p (b.filter (fun kv => !fs.contains kv.1))
          (req :: res.1, res.2.1, res.2.2)
      | .strip none => ([req], .error .typeError, rest)
      | .jsonError => ([req], .error .jsonDecodeError, rest)
      | .no =>
          match validate_response r with
          | some .retriableAPIError =>
              if backoffLeft ≤ 1 then ([req], .error .retriableAPIError, rest)
              else
                let res := underscore_request (backoffLeft - 1) rest m p b
                (req :: res.1, res.2.1, res.2.2)
          | some e => ([req], .error e, rest)
          | none => ([req], .ok r, rest)
termination_by stream.length
decreasing_by all_goals simp

/-- C3: a PATCH answered 400 with error code
`INVALID_FIELD_FOR_INSERT_UPDATE` naming fields `fs` is retried exactly
once with precisely those fields removed from the body (all other fields
unchanged), and the success of the retried request is returned to the
caller. -/
theorem C3_invalid_field_strip_retry (p : String) (b : PyDict) (fs : List String)
    (r1 r2 : Resp)
    (h1s : r1.status = 400)
    (h1j : r1.json0 = .errList ⟨some "INVALID_FIELD_FOR_INSERT_UPDATE", some fs⟩)
    (h2v : validate_response r2 = none) :
    underscore_request 5 [r1, r2] "PATCH" p b =
      ([⟨"PATCH", p, b⟩, ⟨"PATCH", p, b.filter (fun kv => !fs.contains kv.1)⟩],
        .ok r2, []) := by
  have hstrip1 : stripCheck "PATCH" r1 = .strip (some fs) := by
    unfold stripCheck
    rw [h1s, h1j]
    rfl
  have h400 : (r2.status == 400) = false := by
    cases ht : (r2.status == 400) with
    | false => rfl
    | true =>
        exfalso
        have hst : r2.status = 400 := by simpa using ht
        unfold validate_response at h2v
        rw [hst] at h2v
        simp at h2v
  have hstrip2 : stripCheck "PATCH" r2 = .no := by
    unfold stripCheck
    rw [h400]
    simp
  simp only [underscore_request, hstrip1, hstrip2, h2v]

/-- A 400 response carrying the INVALID_FIELD error naming `Foo`. -/
def respInvalidField : Resp :=
  ⟨400, none, none, "INVALID_FIELD_FOR_INSERT_UPDATE",
    .errList ⟨some "INVALID_FIELD_FOR_INSERT_UPDATE", some ["Foo"]⟩⟩

/-- A 204 success response. -/
def respNoContent : Resp := ⟨204, none, some "api-usage=1/100", "", .notJson⟩

/-- Witness for C3: the claimed scenario — PATCH to
`sobjects/Contact/Email/a@x.com` is answered 400 with `fields: ["Foo"]`,
the retry goes out without `Foo` and with `LastName` unchanged, and its
success is the overall result. -/
theorem C3_witness :
    underscore_request 5 [respInvalidField, respNoContent] "PATCH"
        "sobjects/Contact/Email/a@x.com" [("Foo", .vStr "x"), ("LastName", .vStr "Doe")] =
      ([⟨"PATCH", "sobjects/Contact/Email/a@x.com",
          [("Foo", .vStr "x"), ("LastName", .vStr "Doe")]⟩,
        ⟨"PATCH", "sobjects/Contact/Email/a@x.com",
          ([("Foo", .vStr "x"), ("LastName", .vStr "Doe")] : PyDict).filter
            (fun kv => !(["Foo"].contains kv.1))⟩],
        .ok respNoContent, []) ∧
    ([("Foo", .vStr "x"), ("LastName", .vStr "Doe")] : PyDict).filter
        (fun kv => !(["Foo"].contains kv.1)) = [("LastName", .vStr "Doe")] :=
  ⟨C3_invalid_field_strip_retry "sobjects/Contact/Email/a@x.com"
      [("Foo", .vStr "x"), ("LastName", .vStr "Doe")] ["Foo"] respInvalidField
      respNoContent rfl rfl rfl,
    rfl⟩

/-! ### `ContactsSink.validate_response` (sinks.py:306-324) -/

/-- What `ContactsSink.validate_response` does with a response. -/
inductive ContactsVR where
  | passed
  | ignoredSpecialCase
  | raisedTypeError
  | fatal (text : String)
  | retriable
  deriving DecidableEq, Repr

/-- `ContactsSink.validate_response` (sinks.py:306-324): 429/5xx raise
`RetriableAPIError`; a 4xx whose text contains one of two special
fragments is merely logged and swallowed (the caller then treats the 4xx
response as a success); a 4xx reporting the missing
`HasOptedOutOfEmail` column raises `TypeError` — sinks.py:317 calls
`update_field_permissions(profile=..., ...)` but that method
(client.py:428) has no `profile` parameter (and its required
`permission_set_id` is not supplied), so Python rejects the call before
any permissions update happens and before the `RetriableAPIError` of
sinks.py:318 is reached; any other 4xx raises `FatalAPIError` with the
response text unchanged. -/
def contacts_validate_response (r : Resp) : ContactsVR :=
  if r.status == 429 || (500 ≤ r.status && r.status < 600) then .retriable
  else if 400 ≤ r.status && r.status < 500 then
    if pyIn "Already a campaign member." r.text then .ignoredSpecialCase
    else if pyIn "[\x7b\"errorCode\":\"NOT_FOUND\",\"message\":\"The requested resource does not exist\"\x7d]" r.text then .ignoredSpecialCase
    else if pyIn "[\x7b\"message\":\"No such column \x27HasOptedOutOfEmail\x27 on sobject of type" r.text then .raisedTypeError
    else .fatal r.text
  else .passed

theorem stripCheck_none_of_retriable (m : String) (r : Resp)
    (h : (r.status == 429 || (500 ≤ r.status && r.status < 600)) = true) :
    stripCheck m r = .no := by
  have h400 : (r.status == 400) = false := by
    have h2 : r.status = 429 ∨ (500 ≤ r.status ∧ r.status < 600) := by simpa using h
    rcases h2 with h1 | h1
    · rw [h1]
      rfl
    · simp
      omega
  unfold stripCheck
  rw [h400]
  simp

theorem validate_response_retriable (r : Resp)
    (h : (r.status == 429 || (500 ≤ r.status && r.status < 600)) = true) :
    validate_response r = some .retriableAPIError := by
  unfold validate_response
  rw [h]
  rfl

/-- Counterexample to C7 as stated: C7 requires every 4xx outside the
field-stripping case to raise `FatalAPIError` for every sink, but
`ContactsSink.validate_response` swallows a 400 whose text reads
`Already a campaign member.` — no exception is raised at all. -/
theorem C7_counterexample :
    (400 ≤ 400 ∧ 400 < 500) ∧
    contacts_validate_response ⟨400, none, none, "Already a campaign member.", .otherJson⟩ =
      .ignoredSpecialCase := by
  constructor
  · constructor
    · decide
    · decide
  · rfl

/-- C7 (amended): for the base sink, a 429/5xx response is retried with
backoff up to the 5-attempt cap and then surfaced as `RetriableAPIError`,
and any other 4xx raises `FatalAPIError` immediately (one request) with
the response text unmutated — except that a PATCH answered 400 with a
non-JSON body makes the unguarded `response.json()` of client.py:139
raise `JSONDecodeError` instead. `ContactsSink` however overrides
`validate_response`: its 4xx responses raise `FatalAPIError` (text
unmutated) only when the text contains none of its three special
fragments; the first two excepted texts are logged and swallowed (see the
C7 counterexample), and the `HasOptedOutOfEmail` fragment raises
`TypeError` from a call with an unknown `profile` keyword, with no
permissions update and no `RetriableAPIError`. -/
theorem C7_error_classification_amended :
    (∀ (r1 r2 r3 r4 r5 : Resp) (rest : List Resp) (m p : String) (b : PyDict),
      (∀ r ∈ [r1, r2, r3, r4, r5],
        (r.status == 429 || (500 ≤ r.status && r.status < 600)) = true) →
      underscore_request 5 (r1 :: r2 :: r3 :: r4 :: r5 :: rest) m p b =
        ([⟨m, p, b⟩, ⟨m, p, b⟩, ⟨m, p, b⟩, ⟨m, p, b⟩, ⟨m, p, b⟩],
          .error .retriableAPIError, rest)) ∧
    (∀ (r : Resp) (rest : List Resp) (m p : String) (b : PyDict),
      400 ≤ r.status → r.status < 500 → (r.status == 429) = false →
      stripCheck m r = .no →
      underscore_request 5 (r :: rest) m p b =
        ([⟨m, p, b⟩], .error (.fatalAPIError r.text), rest)) ∧
    (∀ (r : Resp) (rest : List Resp) (p : String) (b : PyDict),
      r.status = 400 → r.json0 = .notJson →
      underscore_request 5 (r :: rest) "PATCH" p b =
        ([⟨"PATCH", p, b⟩], .error .jsonDecodeError, rest)) ∧
    (∀ r : Resp,
      400 ≤ r.status → r.status < 500 → (r.status == 429) = false →
      pyIn "Already a campaign member." r.text = false →
      pyIn "[\x7b\"errorCode\":\"NOT_FOUND\",\"message\":\"The requested resource does not exist\"\x7d]" r.text = false →
      pyIn "[\x7b\"message\":\"No such column \x27HasOptedOutOfEmail\x27 on sobject of type" r.text = false →
      contacts_validate_response r = .fatal r.text) ∧
    (∀ r : Resp,
      400 ≤ r.status → r.status < 500 → (r.status == 429) = false →
      pyIn "Already a campaign member." r.text = false →
      pyIn "[\x7b\"errorCode\":\"NOT_FOUND\",\"message\":\"The requested resource does not exist\"\x7d]" r.text = false →
      pyIn "[\x7b\"message\":\"No such column \x27HasOptedOutOfEmail\x27 on sobject of type" r.text = true →
      contacts_validate_response r = .raisedTypeError) := by
  refine ⟨?_, ?_, ?_, ?_, ?_⟩
  · intro r1 r2 r3 r4 r5 rest m p b h
    have k1 := stripCheck_none_of_retriable m r1 (h r1 (by simp))
    have k2 := stripCheck_none_of_retriable m r2 (h r2 (by simp))
    have k3 := stripCheck_none_of_retriable m r3 (h r3 (by simp))
    have k4 := stripCheck_none_of_retriable m r4 (h r4 (by simp))
    have k5 := stripCheck_none_of_retriable m r5 (h r5 (by simp))
    have v1 := validate_response_retriable r1 (h r1 (by simp))
    have v2 := validate_response_retriable r2 (h r2 (by simp))
    have v3 := validate_response_retriable r3 (h r3 (by simp))
    have v4 := validate_response_retriable r4 (h r4 (by simp))
    have v5 := validate_response_retriable r5 (h r5 (by simp))
    simp [underscore_request, k1, k2, k3, k4, k5, v1, v2, v3, v4, v5]
  · intro r rest m p b h4a h4b h429 hstrip
    have hv : validate_response r = some (.fatalAPIError r.text) := by
      unfold validate_response
      have hc1 : (r.status == 429 || (500 ≤ r.status && r.status < 600)) = false := by
        have hn5 : ¬ 500 ≤ r.status := by omega
        simp [h429, hn5]
      have hc2 : (400 ≤ r.status && r.status < 500) = true := by
        simp [h4a, h4b]
      rw [hc1, hc2]
      rfl
    simp [underscore_request, hstrip, hv]
  · intro r rest p b hst hj
    have hs : stripCheck "PATCH" r = .jsonError := by
      unfold stripCheck
      rw [hst, hj]
      rfl
    simp [underscore_request, hs]
  · intro r h4a h4b h429 ht1 ht2 ht3
    unfold contacts_validate_response
    have hc1 : (r.status == 429 || (500 ≤ r.status && r.status < 600)) = false := by
      have hn5 : ¬ 500 ≤ r.status := by omega
      simp [h429, hn5]
    have hc2 : (400 ≤ r.status && r.status < 500) = true := by
      simp [h4a, h4b]
    rw [hc1, hc2, ht1, ht2, ht3]
    rfl
  · intro r h4a h4b h429 ht1 ht2 ht3
    unfold contacts_validate_response
    have hc1 : (r.status == 429 || (500 ≤ r.status && r.status < 600)) = false := by
      have hn5 : ¬ 500 ≤ r.status := by omega
      simp [h429, hn5]
    have hc2 : (400 ≤ r.status && r.status < 500) = true := by
      simp [h4a, h4b]
    rw [hc1, hc2, ht1, ht2, ht3]
    rfl

/-- A plain 404 response with no special text. -/
def respNotFoundPlain : Resp := ⟨404, none, none, "no such record", .otherJson⟩

/-- A 503 response. -/
def resp503 : Resp := ⟨503, none, none, "Service Unavailable", .otherJson⟩

/-- A PATCH-400 response whose body is not JSON. -/
def resp400Bad : Resp := ⟨400, none, none, "<html>Bad Request</html>", .notJson⟩

/-- A 400 response reporting the missing `HasOptedOutOfEmail` column. -/
def respNoColumn : Resp :=
  ⟨400, none, none,
    "[\x7b\"message\":\"No such column \x27HasOptedOutOfEmail\x27 on sobject of type Contact\"\x7d]",
    .otherJson⟩

/-- Witness for the amended C7: five 503s exhaust the 5-try backoff budget
and surface `RetriableAPIError`; a plain 404 is fatal on the first try
with its text unmutated, for the base sink and for `ContactsSink`; a
PATCH-400 with a non-JSON body raises `JSONDecodeError`; the missing
`HasOptedOutOfEmail` column raises `TypeError` for `ContactsSink`. -/
theorem C7_witness :
    (underscore_request 5 [resp503, resp503, resp503, resp503, resp503] "GET" "query" [] =
      ([⟨"GET", "query", []⟩, ⟨"GET", "query", []⟩, ⟨"GET", "query", []⟩,
        ⟨"GET", "query", []⟩, ⟨"GET", "query", []⟩], .error .retriableAPIError, [])) ∧
    (underscore_request 5 [respNotFoundPlain] "GET" "query" [] =
      ([⟨"GET", "query", []⟩], .error (.fatalAPIError "no such record"), [])) ∧
    (underscore_request 5 [resp400Bad] "PATCH" "sobjects/Contact/003xx" [] =
      ([⟨"PATCH", "sobjects/Contact/003xx", []⟩], .error .jsonDecodeError, [])) ∧
    contacts_validate_response respNotFoundPlain = .fatal "no such record" ∧
    contacts_validate_response respNoColumn = .raisedTypeError :=
  ⟨C7_error_classification_amended.1 resp503 resp503 resp503 resp503 resp503 [] "GET"
      "query" [] (by decide),
   C7_error_classification_amended.2.1 respNotFoundPlain [] "GET" "query" []
      (by decide) (by decide) rfl rfl,
   C7_error_classification_amended.2.2.1 resp400Bad [] "sobjects/Contact/003xx" []
      rfl rfl,
   C7_error_classification_amended.2.2.2.1 respNotFoundPlain (by decide) (by decide) rfl
      rfl rfl rfl,
   C7_error_classification_amended.2.2.2.2 respNoColumn (by decide) (by decide) rfl
      rfl rfl rfl⟩

/-! ### `CampaignMemberSink.preprocess_record` (sinks.py:809-865) -/

/-- Python `v == "contact"` as used at sinks.py:818: equality of a record
value against a string literal (non-strings compare unequal). -/
def isStrVal (v : Value) (s : String) : Bool :=
  match v with
  | .vStr t => t == s
  | _ => false

/-- The custom-fields loop of sinks.py:838-843: each entry must be a dict
with a string `name` (suffixed with `__c` when it does not already end so)
and a `value`, transformed by the external hotglue helper
`process_custom_field_value` (`pcfv`). -/
def cm_custom_fold (pcfv : Value → Value) (mapping : PyDict) :
    List Value → Except PyErr PyDict
  | [] => .ok mapping
  | cf :: rest =>
      match cf with
      | .vDict cfd =>
          match dget cfd "name" with
          | some (.vStr nm) =>
              let nm2 := if pyEndsWith nm "__c" then nm else nm ++ "__c"
              match dget cfd "value" with
              | some v => cm_custom_fold pcfv (dset mapping nm2 (pcfv v)) rest
              | none => .error .keyError
          | some _ => .error .typeError
          | none => .error .keyError
      | _ => .error .typeError

/-- `CampaignMemberSink.preprocess_record` (sinks.py:809-865). The
collaborators living outside this repository are passed as functions:
`gcmi` is the result of `get_campaign_member_id` (sinks.py:867-875, a
query), `pcfv` the hotglue `process_custom_field_value`, `glf` the
hotglue `get_lookup_filter`, `lookupFieldsCM` the configured
`lookup_fields_dict` entry for this stream, and `queryOracle` the rows
`map_only_empty_fields` reads for a given lookup filter. The
config-gated `process_custom_fields` provisioning side effect is not
modelled (it does not change the mapping). The local variable `id` is
assigned only inside the `if record.get("contact_id")` branch
(sinks.py:817-823); being assigned somewhere in the body makes it local
everywhere, so the read at `if id:` (sinks.py:825) raises
`UnboundLocalError` whenever `contact_id` is absent or falsy. `idVar =
none` models the unbound state; a Python `None` bound to `id` is
`some .vNull`. -/
def campaign_member_preprocess (fld : List SFField)
    (gcmi : Value → Value → String → Value) (pcfv : Value → Value)
    (lookupFieldsCM : List String) (lookupMethod : String)
    (glf : PyDict → String → String) (onlyUpsertEmpty : Bool)
    (queryOracle : String → List PyDict) (record : PyDict) :
    Except PyErr PyDict := do
  let mapping : PyDict := [("CampaignId", dgetD record "campaign_id")]
  let st :=
    if truthy (dgetD record "contact_id") then
      if isStrVal (dgetD record "type") "contact" then
        (dset mapping "ContactId" (dgetD record "contact_id"),
          some (gcmi (dgetD record "contact_id") (dgetD record "campaign_id") "ContactId"))
      else
        (dset mapping "LeadId" (dgetD record "contact_id"),
          some (gcmi (dgetD record "contact_id") (dgetD record "campaign_id") "LeadId"))
    else (mapping, none)
  let mapping := st.1
  match st.2 with
  | none => .error .unboundLocalError
  | some idv => do
      let record := if truthy idv then dset record "id" idv else record
      let mapping := if truthy (dgetD record "id") then
          dset mapping "Id" (dgetD record "id")
        else mapping
      let mapping := if truthy (dgetD mapping "Id") then
          dpop (dpop mapping "CampaignId") "LeadId"
        else mapping
      let mapping ← (if truthy (dgetD record "custom_fields") then
          match dgetD record "custom_fields" with
          | .vList cfs => cm_custom_fold pcfv mapping cfs
          | _ => .error .typeError
        else .ok mapping)
      let mapping ← validate_output fld mapping
      let lookup_field : Option String :=
        if !lookupFieldsCM.isEmpty then
          let lookup_values := lookupFieldsCM.filterMap
            (fun f => if dcontains mapping f then some (f, dgetD mapping f) else none)
          if !lookup_values.isEmpty then some (glf lookup_values lookupMethod) else none
        else if truthy (dgetD mapping "Id") then
          some ("Id = " ++ pyStr (dgetD mapping "Id"))
        else none
      let mapping := match lookup_field with
        | some lf =>
            if onlyUpsertEmpty then map_only_empty_fields mapping (queryOracle lf)
            else mapping
        | none => mapping
      return mapping

/-- C9: a CampaignMember record whose `contact_id` is absent or falsy
makes `preprocess_record` read the local `id` before any assignment and
raise `UnboundLocalError` — no payload is ever produced for such a
record, so it can never be mapped or upserted. -/
theorem C9_campaign_member_unbound_local (fld : List SFField)
    (gcmi : Value → Value → String → Value) (pcfv : Value → Value)
    (lookupFieldsCM : List String) (lookupMethod : String)
    (glf : PyDict → String → String) (onlyUpsertEmpty : Bool)
    (queryOracle : String → List PyDict) (record : PyDict)
    (h : truthy (dgetD record "contact_id") = false) :
    campaign_member_preprocess fld gcmi pcfv lookupFieldsCM lookupMethod glf
      onlyUpsertEmpty queryOracle record = .error .unboundLocalError := by
  unfold campaign_member_preprocess
  simp [h]

/-- A CampaignMember record that names a campaign but no contact. -/
def recCM : PyDict := [("campaign_id", .vStr "701xx")]

/-- Witness for C9 at a concrete record and trivial collaborators. -/
theorem C9_witness :
    campaign_member_preprocess [] (fun _ _ _ => .vNull) (fun v => v) [] "sequential"
      (fun _ _ => "") false (fun _ => []) recCM = .error .unboundLocalError :=
  C9_campaign_member_unbound_local [] (fun _ _ _ => .vNull) (fun v => v) [] "sequential"
    (fun _ _ => "") false (fun _ => []) recCM rfl

end TargetSalesforceV3
